import Mathlib

/-!
Verification of the image-generation CLI (`src/generate.py`).

The Python source is shallowly embedded below: pure helpers become Lean
functions; the orchestrator `generate` becomes a function from its arguments
and an explicit world (persisted session, directory contents, the provider's
response) to an outcome record (result, provider calls made, persisted
session afterwards).  All definitions are translated directly from the
source file.
-/

/-- Python `in` on strings (substring test), on the character list of a
string: `subAt sub l` is true when `sub` is a prefix of some suffix of `l`. -/
def subAt (sub : List Char) : List Char → Bool
  | [] => sub.isPrefixOf []
  | c :: cs => sub.isPrefixOf (c :: cs) || subAt sub cs

/-- Model of Python `sub in s`: `strContains s sub`. -/
def strContains (s sub : String) : Bool := subAt sub.data s.data

/-- Model of Python `s.lower()`: lower-case character by character (the
prompts and keywords involved are ASCII). -/
def strToLower (s : String) : String := String.mk (s.data.map Char.toLower)

/-- Python truthiness of an optional string (`None` and `""` are falsy). -/
def pyTruthy : Option String → Bool
  | none => false
  | some s => !s.isEmpty

/-- The `MODELS` table from `generate.py`, in dict insertion order. -/
def MODELS : List (String × String) :=
  [("nano-banana", "google/gemini-2.5-flash-image-preview"),
   ("nano-banana-pro", "google/gemini-3-pro-image-preview"),
   ("gpt-image", "gpt-image-1"),
   ("gpt-image-1.5", "gpt-image-1.5"),
   ("gpt-image-mini", "gpt-image-1-mini")]

/-- Model of `", ".join(MODELS.keys())`. -/
def availableModels : String := String.intercalate ", " (MODELS.map Prod.fst)

def transparency_keywords : List String :=
  ["transparent", "transparency", "png with alpha",
   "no background", "remove background", "cutout",
   "isolated on", "white background", "clear background"]

def text_keywords : List String :=
  ["text", "typography", "lettering", "words", "title",
   "heading", "sign", "poster with text", "logo with text",
   "banner", "quote", "writing"]

def fast_keywords : List String :=
  ["quick", "draft", "rough", "sketch", "fast", "test"]

def highres_keywords : List String :=
  ["4k", "high res", "high resolution", "detailed",
   "print quality", "large format", "poster", "wallpaper"]

/-- Function `select_model` from `generate.py` (same argument order). -/
def select_model (prompt : String) (transparent : Bool := false)
    (high_res : Bool := false) (fast : Bool := false)
    (text_heavy : Bool := false) : String :=
  let prompt_lower := strToLower prompt
  if transparent || transparency_keywords.any (fun kw => strContains prompt_lower kw) then
    "gpt-image-1.5"
  else if text_heavy || text_keywords.any (fun kw => strContains prompt_lower kw) then
    "gpt-image-1.5"
  else if fast || fast_keywords.any (fun kw => strContains prompt_lower kw) then
    "nano-banana"
  else if high_res || highres_keywords.any (fun kw => strContains prompt_lower kw) then
    "nano-banana-pro"
  else
    "nano-banana-pro"

/-- A history entry appended by `generate` (`session["history"].append({...})`). -/
structure GenerationRecord where
  prompt : String
  model : String
  input : Option String
  output : String
  timestamp : String
deriving Repr, DecidableEq

/-- The session JSON document (`load_session` / `save_session`). -/
structure Session where
  current_image : Option String
  history : List GenerationRecord
  output_dir : Option String
deriving Repr, DecidableEq

/-- Function `load_session`: the parsed session file if it exists, else the default. -/
def load_session : Option Session → Session
  | some s => s
  | none => { current_image := none, history := [], output_dir := none }

/-- The `set-dir` command body from `main`: load the session, set
`output_dir` to the resolved directory string, save. -/
def set_dir (sessionFile : Option Session) (resolvedDir : String) : Session :=
  let session := load_session sessionFile
  { session with output_dir := some resolvedDir }

/-! ## HTTP retry primitive (the identical loop in `generate_openrouter`
and `generate_openai`, lines 196-218 and 261-307). -/

/-- Classes of `requests.exceptions.RequestException`: transport-level
failures and the `HTTPError` raised by `response.raise_for_status()`.
Both adapters catch exactly this exception class in their retry loop. -/
inductive RequestError where
  | connectionError (msg : String)
  | timeout (msg : String)
  | sslError (msg : String)
  | httpStatusError (code : Nat) (msg : String)
deriving Repr, DecidableEq

def MAX_RETRIES : Nat := 3

def RETRY_BACKOFF_BASE : Nat := 2

/-- The retry loop body: `attempt` is the loop index, the second argument is
the number of remaining iterations (`MAX_RETRIES - attempt`).  Returns the
result (`ok` response or the last observed error), the number of attempts
made, and the list of sleep durations (`RETRY_BACKOFF_BASE ** attempt`)
taken between attempts. -/
def retryGo {α : Type} (f : Nat → Except RequestError α) :
    Nat → Nat → Except RequestError α × Nat × List Nat
  | attempt, Nat.succ (Nat.succ remaining) =>
    match f attempt with
    | .ok v => (.ok v, attempt + 1, [])
    | .error _ =>
      let rest := retryGo f (attempt + 1) (Nat.succ remaining)
      (rest.1, rest.2.1, RETRY_BACKOFF_BASE ^ attempt :: rest.2.2)
  | attempt, _ =>
    match f attempt with
    | .ok v => (.ok v, attempt + 1, [])
    | .error e => (.error e, attempt + 1, [])

/-- Model of `for attempt in range(MAX_RETRIES): ...` — the whole retry loop, where
`f i` is the outcome of sending the (identical) request on attempt `i`. -/
def retryCall {α : Type} (f : Nat → Except RequestError α) :
    Except RequestError α × Nat × List Nat :=
  retryGo f 0 MAX_RETRIES

/-! ## `save_image` filename generation (lines 128-158). -/

/-- Python `f"{index:03d}"`: decimal, zero-padded to width 3. -/
def pad3 (n : Nat) : String :=
  let s := toString n
  if s.length < 3 then String.mk (List.replicate (3 - s.length) '0') ++ s else s

/-- The `ext_map` dict in `save_image`. -/
def ext_map : List (String × String) :=
  [("image/png", "png"), ("image/jpeg", "jpg"), ("image/jpg", "jpg"),
   ("image/webp", "webp"), ("image/gif", "gif")]

/-- Extension detection in `save_image`: for a `data:` URL, split off the
header at the first comma and map the MIME type (default `png`); a `data:`
string with no comma makes the unpacking `header, base64_data = ...split(",", 1)`
raise, modelled as `none`.  Returns the extension and the remaining payload. -/
def inferExt (b64 : String) : Option (String × String) :=
  if b64.startsWith "data:" then
    match b64.splitOn "," with
    | header :: r :: rs =>
      let mime := ((header.splitOn ";").headD "").replace "data:" ""
      some ((ext_map.lookup mime).getD "png", String.intercalate "," (r :: rs))
    | _ => none
  else
    some ("png", b64)

/-- fnmatch semantics of the glob `{pfx}_{timestamp}_*.{ext}` used in
`save_image` (`*` matches any, possibly empty, character sequence). -/
def matches_glob (pfx ts ext name : String) : Bool :=
  (pfx ++ "_" ++ ts ++ "_").data.isPrefixOf name.data &&
  ("." ++ ext).data.isSuffixOf name.data &&
  decide ((pfx ++ "_" ++ ts ++ "_").length + ("." ++ ext).length ≤ name.length)

/-- Filename choice in `save_image`: count the files matching the glob and
use an incremented, zero-padded counter. -/
def save_image_name (files : List String) (pfx ts ext : String) : String :=
  let existing := files.filter (matches_glob pfx ts ext)
  let index := existing.length + 1
  pfx ++ "_" ++ ts ++ "_" ++ pad3 index ++ "." ++ ext

/-- One `save_image` call against a directory state: returns the chosen
filename and the directory contents afterwards (the new file is written). -/
def save_image_app (files : List String) (pfx ts ext : String) :
    String × List String :=
  let name := save_image_name files pfx ts ext
  (name, name :: files)

/-! ## Response extraction in `generate_openrouter` (lines 220-241). -/

/-- A small JSON value model for the provider's `message` object. -/
inductive J where
  | s (v : String)
  | arr (xs : List J)
  | obj (fields : List (String × J))
  | null

/-- Python truthiness of a JSON value. -/
def J.truthy : J → Bool
  | .s v => !v.isEmpty
  | .arr xs => !xs.isEmpty
  | .obj fs => !fs.isEmpty
  | .null => false

/-- Model of `dict.get(k)` (first binding wins, `None` when absent). -/
def jGet (d : List (String × J)) (k : String) : Option J := d.lookup k

/-- Test `v == "lit"` for a JSON value against a string literal. -/
def jIsStr (v : J) (lit : String) : Bool :=
  match v with
  | .s t => t == lit
  | _ => false

/-- Python `a or b` on optional values (`None` and falsy values lose). -/
def pyOr (a b : Option J) : Option J :=
  match a with
  | some v => if v.truthy then some v else b
  | none => b

/-- Outcome of the extraction code after a successful HTTP response:
`image p` is a `return` (with `p = none` when Python returns `None`),
`protocolError ks` is the `ValueError` reporting the message's keys, and
`keyError`/`typeError` model uncaught indexing errors on off-shape data. -/
inductive ExtractResult where
  | image (payload : Option J)
  | protocolError (keys : List String)
  | keyError (k : String)
  | typeError (msg : String)

/-- The `images` branch (lines 225-233), applied to `message["images"]`
which is known truthy: take element `[0]`, handle dict and string shapes. -/
def images_branch (imgs : J) : ExtractResult :=
  match imgs with
  | .arr (img :: _) =>
    match img with
    | .obj fields =>
      match jGet fields "image_url" with
      | some (.obj iu) =>
        (match jGet iu "url" with
         | some u => .image (some u)
         | none => .keyError "url")
      | _ => .image (pyOr (pyOr (jGet fields "url") (jGet fields "b64_json"))
                          (jGet fields "data"))
    | _ => .image (some img)
  | .s v => .image (some (.s (String.singleton (v.get 0))))
  | .obj _ => .keyError "0"
  | _ => .typeError "not subscriptable"

/-- The `content` fallback loop (lines 236-239): first part whose `type`
is `"image_url"` returns `part["image_url"]["url"]`; `none` when the loop
falls through. -/
def scan_content : List J → Option ExtractResult
  | [] => none
  | p :: rest =>
    match p with
    | .obj fs =>
      if jIsStr ((jGet fs "type").getD .null) "image_url" then
        some (match jGet fs "image_url" with
              | some (.obj iu) =>
                (match jGet iu "url" with
                 | some u => .image (some u)
                 | none => .keyError "url")
              | some _ => .typeError "not subscriptable"
              | none => .keyError "image_url")
      else scan_content rest
    | _ => some (.typeError "get on non-dict")

/-- The fallthrough after the `images` branch: scan `message["content"]`
when it is a list, else raise the diagnostic `ValueError` carrying
`message.keys()`. -/
def content_fallback (message : List (String × J)) : ExtractResult :=
  match jGet message "content" with
  | some (.arr parts) =>
    (match scan_content parts with
     | some r => r
     | none => .protocolError (message.map Prod.fst))
  | _ => .protocolError (message.map Prod.fst)

/-- Full image extraction from the chat response's `message` object
(lines 223-241): the `images` field when present and truthy, else the
content scan, else the diagnostic error. -/
def extract_image (message : List (String × J)) : ExtractResult :=
  match jGet message "images" with
  | some imgs => if imgs.truthy then images_branch imgs else content_fallback message
  | none => content_fallback message

/-- Condition: `message["images"]` is absent or falsy (`None`, `[]`, ...). -/
def images_falsy (message : List (String × J)) : Bool :=
  match jGet message "images" with
  | some v => !v.truthy
  | none => true

/-- The content list yields no image part (or content is absent / not a
list). -/
def content_has_no_image (message : List (String × J)) : Bool :=
  match jGet message "content" with
  | some (.arr parts) => (scan_content parts).isNone
  | _ => true

/-! ## The orchestrator `generate` (lines 314-374). -/

inductive Provider where
  | openai
  | openrouter
deriving Repr, DecidableEq

/-- One dispatch to a provider adapter (a network round trip, with the
retry loop inside the adapter). -/
structure ProviderCall where
  provider : Provider
  prompt : String
  model : String
  input_image : Option String
deriving Repr, DecidableEq

/-- Errors `generate` can raise: the unknown-alias `ValueError`
(`ConfigError` in the spec's taxonomy), a provider failure after retry
exhaustion, and the unpacking `ValueError` inside `save_image`. -/
inductive GenError where
  | configError (msg : String)
  | networkError (e : RequestError)
  | valueError (msg : String)
deriving Repr, DecidableEq

/-- Arguments of `generate` (`main` passes `input_image` only for the
`edit` command). -/
structure GenArgs where
  prompt : String
  model_alias : Option String := none
  input_image : Option String := none
  output_dir : Option String := none
  aspect_ratio : Option String := none
  image_size : Option String := none
  size : String := "auto"
  transparent : Bool := false
  fast : Bool := false

/-- The world one `generate` invocation runs against: the persisted session
file, the working directory, the wall clock, path resolution, the contents
of each directory, and the provider's response for this invocation's single
dispatch. -/
structure World where
  sessionFile : Option Session
  cwd : String
  timestamp : String
  isoTimestamp : String
  resolvePath : String → String
  dirFiles : String → List String
  providerResponse : Except RequestError String

/-- Outcome of one `generate` invocation: the returned path or raised
error, the provider dispatches performed, and the persisted session file
afterwards. -/
structure GenOutcome where
  result : Except GenError String
  calls : List ProviderCall
  persisted : Option Session

/-- Output-directory resolution (lines 334-342): explicit argument (when
truthy) is resolved and recorded in the session; else the session's
remembered directory (when truthy); else `<cwd>/generated-images`,
recorded in the session.  Returns the path and the updated in-memory
session. -/
def resolve_output_dir (arg : Option String) (session : Session)
    (rp : String → String) (cwd : String) : String × Session :=
  if pyTruthy arg then
    let p := rp (arg.getD "")
    (p, { session with output_dir := some p })
  else if pyTruthy session.output_dir then
    (session.output_dir.getD "", session)
  else
    let p := cwd ++ "/generated-images"
    (p, { session with output_dir := some p })

/-- Input-image resolution (lines 344-346): fall back to the session's
current image when no explicit input is given and the current image is
truthy. -/
def resolve_input_image (arg : Option String) (session : Session) :
    Option String :=
  if arg.isNone && pyTruthy session.current_image then session.current_image
  else arg

/-- Model-alias resolution (lines 322-325): auto-select via `select_model`
when the argument is absent or `"auto"` (passing `high_res` exactly when
`image_size == "4K"`, and never passing `text_heavy`). -/
def resolve_model_alias (arg : Option String) (prompt : String)
    (transparent : Bool) (image_size : Option String) (fast : Bool) : String :=
  match arg with
  | none => select_model prompt transparent (image_size == some "4K") fast false
  | some a =>
    if a = "auto" then
      select_model prompt transparent (image_size == some "4K") fast false
    else a

/-- Function `generate` (lines 314-374): load session, resolve the model alias
(auto-selection via `select_model` when absent or `"auto"`), reject unknown
aliases, resolve output directory and input image, dispatch to the adapter
chosen by the `gpt-` alias naming convention, and on success save the image
and persist the updated session. -/
def generate (args : GenArgs) (w : World) : GenOutcome :=
  let session := load_session w.sessionFile
  let malias := resolve_model_alias args.model_alias args.prompt
    args.transparent args.image_size args.fast
  match MODELS.lookup malias with
  | none =>
    { result := .error (.configError
        ("Unknown model '" ++ malias ++ "'. Available: " ++ availableModels)),
      calls := [], persisted := w.sessionFile }
  | some model =>
    let is_openai := malias.startsWith "gpt-"
    let rdir := resolve_output_dir args.output_dir session w.resolvePath w.cwd
    let out_path := rdir.1
    let session1 := rdir.2
    let input_image := resolve_input_image args.input_image session1
    let call : ProviderCall :=
      { provider := if is_openai then .openai else .openrouter,
        prompt := args.prompt, model := model, input_image := input_image }
    match w.providerResponse with
    | .error e =>
      { result := .error (.networkError e), calls := [call],
        persisted := w.sessionFile }
    | .ok b64 =>
      match inferExt b64 with
      | none =>
        { result := .error (.valueError "not enough values to unpack"),
          calls := [call], persisted := w.sessionFile }
      | some (ext, _) =>
        let fname := save_image_name (w.dirFiles out_path) "gen" w.timestamp ext
        let saved := out_path ++ "/" ++ fname
        let record : GenerationRecord :=
          { prompt := args.prompt, model := malias, input := input_image,
            output := saved, timestamp := w.isoTimestamp }
        let session2 :=
          { session1 with current_image := some saved,
                          history := session1.history ++ [record] }
        { result := .ok saved, calls := [call], persisted := some session2 }

/-! ## Theorems -/

/-- Helper: whatever `select_model` returns is a key of `MODELS`. -/
theorem lookup_select_isSome (p : String) (t h f x : Bool) :
    (MODELS.lookup (select_model p t h f x)).isSome = true := by
  simp only [select_model]
  repeat' split
  all_goals decide

/-- C2: whenever the transparent flag is set or the (lower-cased) prompt
contains a transparency keyword, `select_model` returns `"gpt-image-1.5"`,
regardless of the other flags and of any other keywords in the prompt. -/
theorem select_model_transparency (prompt : String)
    (transparent high_res fast text_heavy : Bool)
    (h : transparent = true ∨
         ∃ kw ∈ transparency_keywords, strContains (strToLower prompt) kw = true) :
    select_model prompt transparent high_res fast text_heavy = "gpt-image-1.5" := by
  unfold select_model
  rcases h with h | ⟨kw, hmem, hsub⟩
  · simp [h]
  · have hany : transparency_keywords.any
        (fun kw => strContains (strToLower prompt) kw) = true :=
      List.any_eq_true.mpr ⟨kw, hmem, hsub⟩
    simp [hany]

/-- C2 witness: a prompt containing both "transparent" (upper-case, checking
case-insensitivity) and "sketch" selects `"gpt-image-1.5"`, and so does the
flag alone with a keyword-free prompt. -/
theorem select_model_transparency_witness :
    select_model "make a TRANSPARENT sketch of a cat" false false false false
      = "gpt-image-1.5" ∧
    select_model "a plain red circle" true false false false = "gpt-image-1.5" :=
  ⟨select_model_transparency _ false false false false
     (Or.inr ⟨"transparent", by decide, by decide⟩),
   select_model_transparency _ true false false false (Or.inl rfl)⟩

/-- C9: for every prompt and flag combination, `select_model` returns one of
the three aliases it can produce, each a key of `MODELS`; consequently a
`generate` run with auto-selection (`model_alias` absent or `"auto"`) can
never fail with the unknown-alias `ConfigError`. -/
theorem select_model_total (p : String) (t h f x : Bool) :
    ((select_model p t h f x = "gpt-image-1.5" ∨
      select_model p t h f x = "nano-banana" ∨
      select_model p t h f x = "nano-banana-pro") ∧
     (MODELS.lookup (select_model p t h f x)).isSome = true) ∧
    (∀ (args : GenArgs) (w : World),
      (args.model_alias = none ∨ args.model_alias = some "auto") →
      ∀ msg, (generate args w).result ≠ .error (.configError msg)) := by
  constructor
  · constructor
    · simp only [select_model]
      repeat' split
      all_goals simp
    · exact lookup_select_isSome p t h f x
  · intro args w hauto msg
    have hs := lookup_select_isSome args.prompt args.transparent
      (args.image_size == some "4K") args.fast false
    obtain ⟨m, hm⟩ := Option.isSome_iff_exists.mp hs
    have hra : resolve_model_alias args.model_alias args.prompt
        args.transparent args.image_size args.fast
        = select_model args.prompt args.transparent
            (args.image_size == some "4K") args.fast false := by
      rcases hauto with ha | ha <;> simp [resolve_model_alias, ha]
    simp only [generate]
    rw [hra, hm]
    cases hw : w.providerResponse with
    | error e => simp [hw]
    | ok b64 =>
      rcases hi : inferExt b64 with _ | ⟨ex, rest⟩ <;> simp [hw, hi]

/-- A concrete world used to instantiate witnesses: empty session file, a
provider that answers with plain base64. -/
def testWorld : World :=
  { sessionFile := none, cwd := "/proj", timestamp := "20260101_120000",
    isoTimestamp := "2026-01-01T12:00:00", resolvePath := fun s => s,
    dirFiles := fun _ => [], providerResponse := .ok "QUJD" }

/-- C9 witness: auto-selection on a concrete prompt cannot produce the
unknown-alias error. -/
theorem select_model_total_witness :
    (generate { prompt := "a castle" } testWorld).result
      ≠ .error (.configError "x") :=
  (select_model_total "a castle" false false false false).2
    { prompt := "a castle" } testWorld (Or.inl rfl) "x"

/-- C10: the `set-dir` command only touches `output_dir`: for every prior
persisted session, `current_image` and `history` are unchanged and
`output_dir` becomes the given directory. -/
theorem set_dir_frame (s : Session) (d : String) :
    (set_dir (some s) d).current_image = s.current_image ∧
    (set_dir (some s) d).history = s.history ∧
    (set_dir (some s) d).output_dir = some d := by
  simp [set_dir, load_session]

/-- Helper: a successful attempt ends the loop at once. -/
theorem retryGo_ok {α : Type} (f : Nat → Except RequestError α) (v : α)
    (a r : Nat) (hf : f a = .ok v) :
    retryGo f a r = (.ok v, a + 1, []) := by
  rcases r with _ | _ | r <;> simp [retryGo, hf]

/-- Helper: a failure on the last remaining attempt raises that error. -/
theorem retryGo_error_last {α : Type} (f : Nat → Except RequestError α)
    (e : RequestError) (a : Nat) (hf : f a = .error e) :
    retryGo f a 1 = (.error e, a + 1, []) := by
  simp [retryGo, hf]

/-- Helper: a failure with at least two attempts remaining sleeps
`RETRY_BACKOFF_BASE ^ attempt` and continues. -/
theorem retryGo_error_step {α : Type} (f : Nat → Except RequestError α)
    (e : RequestError) (a r : Nat) (hf : f a = .error e) :
    retryGo f a (r + 2) =
      ((retryGo f (a + 1) (r + 1)).1, (retryGo f (a + 1) (r + 1)).2.1,
       RETRY_BACKOFF_BASE ^ a :: (retryGo f (a + 1) (r + 1)).2.2) := by
  show retryGo f a (Nat.succ (Nat.succ r)) = _
  simp [retryGo, hf]

/-- C3: when every attempt fails, the retry loop makes exactly
`MAX_RETRIES = 3` attempts, sleeps `1` second then `2` seconds between
them (`RETRY_BACKOFF_BASE ^ attempt` with base 2), and raises the error
observed on the final attempt. -/
theorem retry_all_fail {α : Type} (f : Nat → Except RequestError α)
    (es : Nat → RequestError) (h : ∀ i, f i = .error (es i)) :
    retryCall f = (.error (es 2), 3, [1, 2]) := by
  have s0 := retryGo_error_step f (es 0) 0 1 (h 0)
  have s1 := retryGo_error_step f (es 1) 1 0 (h 1)
  have s2 := retryGo_error_last f (es 2) 2 (h 2)
  unfold retryCall MAX_RETRIES
  norm_num at s0 s1 ⊢
  rw [s0, s1, s2]
  simp [RETRY_BACKOFF_BASE]

/-- C3 witness: concrete always-failing attempts give exactly 3 attempts,
waits of 1s and 2s, and the third attempt's error. -/
theorem retry_all_fail_witness :
    retryCall (fun i => (.error (.timeout (toString i)) : Except RequestError String))
      = (.error (.timeout "2"), 3, [1, 2]) :=
  retry_all_fail _ (fun i => .timeout (toString i)) (fun _ => rfl)

/-- Helper: the attempt count and wait list produced by the retry loop
depend only on which attempts succeed, never on the error values. -/
theorem retryGo_shape_congr {α β : Type} (f : Nat → Except RequestError α)
    (g : Nat → Except RequestError β) (h : ∀ i, (f i).isOk = (g i).isOk) :
    ∀ r a, (retryGo f a r).2 = (retryGo g a r).2 := by
  intro r
  induction r using Nat.strong_induction_on with
  | _ r ih =>
    intro a
    have hab := h a
    rcases r with _ | _ | r
    · cases hf : f a <;> cases hg : g a <;> simp [retryGo, hf, hg]
    · cases hf : f a <;> cases hg : g a <;> simp [retryGo, hf, hg]
    · cases hf : f a <;> cases hg : g a
      · have := ih (r + 1) (by omega) (a + 1)
        rw [retryGo_error_step f _ a r hf, retryGo_error_step g _ a r hg]
        simp [Prod.ext_iff] at this ⊢
        exact ⟨this.1, this.2⟩
      · exfalso; rw [hf, hg] at hab
        simp [Except.isOk, Except.toBool] at hab
      · exfalso; rw [hf, hg] at hab
        simp [Except.isOk, Except.toBool] at hab
      · rw [retryGo_ok f _ a _ hf, retryGo_ok g _ a _ hg]

/-- C6: the retry loop classifies attempt outcomes only as success versus
raised `RequestException`: the attempt count and the waits are a function
of the success pattern alone (any error class, HTTP-status errors
included, is retried the same way), and any single failure with attempts
remaining — whatever its class — is followed by a further attempt. -/
theorem retry_uniform_error_classes :
    (∀ (f g : Nat → Except RequestError String),
       (∀ i, (f i).isOk = (g i).isOk) →
       (retryCall f).2 = (retryCall g).2) ∧
    (∀ (e : RequestError) (v : String) (f : Nat → Except RequestError String),
       f 0 = .error e → f 1 = .ok v → retryCall f = (.ok v, 2, [1])) := by
  constructor
  · intro f g h
    exact retryGo_shape_congr f g h MAX_RETRIES 0
  · intro e v f h0 h1
    have s0 := retryGo_error_step f e 0 1 h0
    have s1 := retryGo_ok f v 1 2 h1
    unfold retryCall MAX_RETRIES
    norm_num at s0 ⊢
    rw [s0, s1]

/-- C6 witness: an HTTP-status failure (an authentication rejection, not a
transport failure) is retried exactly like any other error: a second
attempt happens and succeeds. -/
theorem retry_uniform_error_classes_witness :
    retryCall (fun i =>
      if i = 0 then (.error (.httpStatusError 401 "Unauthorized")
                      : Except RequestError String)
      else .ok "payload") = (.ok "payload", 2, [1]) :=
  retry_uniform_error_classes.2 (.httpStatusError 401 "Unauthorized")
    "payload" _ rfl rfl

/-- Helper: a filename generated by `save_image_name`'s scheme matches the
glob `{pfx}_{ts}_*.{ext}` that `save_image` uses to count collisions. -/
theorem matches_glob_name (pfx ts ext : String) (k : Nat) :
    matches_glob pfx ts ext (pfx ++ "_" ++ ts ++ "_" ++ pad3 k ++ "." ++ ext)
      = true := by
  unfold matches_glob
  rw [Bool.and_eq_true, Bool.and_eq_true]
  refine ⟨⟨?_, ?_⟩, ?_⟩
  · rw [List.isPrefixOf_iff_prefix]
    exact ⟨(pad3 k ++ ("." ++ ext)).data,
      by simp [String.data_append, List.append_assoc]⟩
  · rw [List.isSuffixOf_iff_suffix]
    exact ⟨(pfx ++ "_" ++ ts ++ "_" ++ pad3 k).data,
      by simp [String.data_append, List.append_assoc]⟩
  · rw [decide_eq_true_iff]
    simp only [String.length_append]
    omega

/-- C7: two consecutive `save_image` calls with the same timestamp, file
stem and inferred extension into a directory with no previously matching
files produce the filenames `<pfx>_<ts>_001.<ext>` then `<pfx>_<ts>_002.<ext>`,
distinct and differing only in the incremented 3-digit counter. -/
theorem save_image_counter (files : List String) (pfx ts ext : String)
    (h : files.filter (matches_glob pfx ts ext) = []) :
    (save_image_app files pfx ts ext).1
        = pfx ++ "_" ++ ts ++ "_" ++ "001" ++ "." ++ ext ∧
    (save_image_app (save_image_app files pfx ts ext).2 pfx ts ext).1
        = pfx ++ "_" ++ ts ++ "_" ++ "002" ++ "." ++ ext ∧
    (save_image_app files pfx ts ext).1
        ≠ (save_image_app (save_image_app files pfx ts ext).2 pfx ts ext).1 := by
  have hp1 : pad3 1 = "001" := rfl
  have hp2 : pad3 2 = "002" := rfl
  have h1 : (save_image_app files pfx ts ext).1
      = pfx ++ "_" ++ ts ++ "_" ++ "001" ++ "." ++ ext := by
    simp [save_image_app, save_image_name, h, hp1]
  have h2 : (save_image_app (save_image_app files pfx ts ext).2 pfx ts ext).1
      = pfx ++ "_" ++ ts ++ "_" ++ "002" ++ "." ++ ext := by
    have hsnd : (save_image_app files pfx ts ext).2
        = (save_image_app files pfx ts ext).1 :: files := rfl
    rw [hsnd]
    simp [save_image_app, save_image_name, List.filter_cons, h, hp2,
          matches_glob_name pfx ts ext 1]
  refine ⟨h1, h2, ?_⟩
  rw [h1, h2]
  intro heq
  have hd := congrArg String.data heq
  simp only [String.data_append, List.append_assoc] at hd
  have hd1 := List.append_cancel_left hd
  have hd2 := List.append_cancel_left hd1
  have hd3 := List.append_cancel_left hd2
  have hd4 := List.append_cancel_left hd3
  simp at hd4

/-- C7 witness: concrete two saves into an initially empty directory. -/
theorem save_image_counter_witness :
    (save_image_app [] "gen" "20260101_120000" "png").1
        = "gen" ++ "_" ++ "20260101_120000" ++ "_" ++ "001" ++ "." ++ "png" ∧
    (save_image_app (save_image_app [] "gen" "20260101_120000" "png").2
        "gen" "20260101_120000" "png").1
        = "gen" ++ "_" ++ "20260101_120000" ++ "_" ++ "002" ++ "." ++ "png" ∧
    (save_image_app [] "gen" "20260101_120000" "png").1
        ≠ (save_image_app (save_image_app [] "gen" "20260101_120000" "png").2
            "gen" "20260101_120000" "png").1 :=
  save_image_counter [] "gen" "20260101_120000" "png" rfl

/-- C4: a `generate` call with explicit unknown alias `"foo"` raises the
unknown-alias `ConfigError` (whose message lists every valid alias), makes
no provider dispatch, and leaves the persisted session file unmodified —
for every world and every other argument. -/
theorem generate_unknown_alias (args : GenArgs) (w : World)
    (h : args.model_alias = some "foo") :
    (generate args w).result = .error (.configError
        ("Unknown model 'foo'. Available: " ++ availableModels)) ∧
    (generate args w).calls = [] ∧
    (generate args w).persisted = w.sessionFile ∧
    ∀ a ∈ MODELS.map Prod.fst, strContains availableModels a = true := by
  have hlook : MODELS.lookup "foo" = none := by decide
  refine ⟨?_, ?_, ?_, by decide⟩ <;>
    simp [generate, resolve_model_alias, h, hlook]

/-- C4 witness: the concrete scenario with an otherwise-default call. -/
theorem generate_unknown_alias_witness :
    (generate { prompt := "a red circle", model_alias := some "foo" }
        testWorld).result
      = .error (.configError ("Unknown model 'foo'. Available: "
          ++ availableModels)) ∧
    (generate { prompt := "a red circle", model_alias := some "foo" }
        testWorld).persisted = testWorld.sessionFile :=
  ⟨(generate_unknown_alias _ testWorld rfl).1,
   (generate_unknown_alias _ testWorld rfl).2.2.1⟩

/-- A world whose provider call fails and whose persisted session is empty,
used to exercise the failure path of `generate`. -/
def failWorld : World :=
  { sessionFile := some { current_image := none, history := [], output_dir := none },
    cwd := "/proj", timestamp := "20260101_120000",
    isoTimestamp := "2026-01-01T12:00:00", resolvePath := fun s => s,
    dirFiles := fun _ => [], providerResponse := .error (.timeout "timed out") }

/-- Arguments used in the output-directory scenarios: an explicit `-o`
directory with an explicit known alias. -/
def dirArgs : GenArgs :=
  { prompt := "p",
    model_alias := some "nano-banana",
    output_dir := some "/chosen" }

/-- C5 counterexample: an invocation with an explicit output directory whose
generation fails afterwards leaves the persisted session file exactly as it
was — the resolved directory was NOT persisted immediately, contrary to the
claim. -/
theorem output_dir_not_persisted_on_failure :
    (generate dirArgs failWorld).result
      = .error (.networkError (.timeout "timed out")) ∧
    (generate dirArgs failWorld).persisted
      = some { current_image := none, history := [], output_dir := none } := by
  constructor <;> rfl

/-- Helper: output-directory resolution never touches `current_image` or
`history` in the in-memory session. -/
theorem resolve_output_dir_frame (arg : Option String) (session : Session)
    (rp : String → String) (cwd : String) :
    (resolve_output_dir arg session rp cwd).2.current_image
        = session.current_image ∧
    (resolve_output_dir arg session rp cwd).2.history = session.history := by
  unfold resolve_output_dir
  split <;> simp
  split <;> simp

/-- Helper: the in-memory session after resolution always records the
resolved directory. -/
theorem resolve_output_dir_sets (arg : Option String) (session : Session)
    (rp : String → String) (cwd : String) :
    (resolve_output_dir arg session rp cwd).2.output_dir
      = some (resolve_output_dir arg session rp cwd).1 := by
  unfold resolve_output_dir
  split
  · simp
  split
  · rename_i h1 h2
    cases hs : session.output_dir with
    | none => rw [hs] at h2; simp [pyTruthy] at h2
    | some p => simp [hs]
  · simp

/-- C5 amended: `generate` records the resolved output directory only in
the in-memory session; it persists it solely as part of the final session
save after a successful generation.  Concretely: on any failure the
persisted session file is unchanged, and on success the persisted session's
`output_dir` is the resolved directory. -/
theorem generate_persists_output_dir_only_on_success (args : GenArgs)
    (w : World) :
    ((generate args w).result.isOk = false →
       (generate args w).persisted = w.sessionFile) ∧
    ((generate args w).result.isOk = true →
       ∃ s, (generate args w).persisted = some s ∧
         s.output_dir = some (resolve_output_dir args.output_dir
             (load_session w.sessionFile) w.resolvePath w.cwd).1) := by
  simp only [generate]
  rcases hl : MODELS.lookup (resolve_model_alias args.model_alias args.prompt
      args.transparent args.image_size args.fast) with _ | m <;> simp only [hl]
  · simp [Except.isOk, Except.toBool]
  · rcases hw : w.providerResponse with e | b64 <;> simp only [hw]
    · simp [Except.isOk, Except.toBool]
    · rcases hi : inferExt b64 with _ | ⟨ex, rest⟩ <;> simp only [hi]
      · simp [Except.isOk, Except.toBool]
      · simp only [Except.isOk, Except.toBool]
        refine ⟨fun hfalse => (by cases hfalse), fun _ => ⟨_, rfl, ?_⟩⟩
        exact resolve_output_dir_sets _ _ _ _

/-- C5 amended witness: a successful generation persists a session whose
`output_dir` is the resolved directory. -/
theorem generate_persists_output_dir_witness :
    ∃ s, (generate dirArgs testWorld).persisted = some s ∧
      s.output_dir = some (resolve_output_dir dirArgs.output_dir
          (load_session testWorld.sessionFile) testWorld.resolvePath
          testWorld.cwd).1 :=
  (generate_persists_output_dir_only_on_success dirArgs testWorld).2 rfl

/-- A world whose persisted session has a current image, as after any
earlier successful generation. -/
def sessionWorld : World :=
  { sessionFile := some { current_image := some "/prev.png", history := [],
                          output_dir := some "/out" },
    cwd := "/proj", timestamp := "20260101_120000",
    isoTimestamp := "2026-01-01T12:00:00", resolvePath := fun s => s,
    dirFiles := fun _ => [], providerResponse := .ok "QUJD" }

/-- C1 (evaluation at the failing input): a generate-flow invocation — no
explicit input image, exactly what `main` passes for the `generate`
command — against a session whose `current_image` is set dispatches to the
provider WITH the session's current image as the input image, i.e. it
performs an edit, not a pure generation.  The fallback on lines 344-346 is
not restricted to edit-style flows. -/
theorem generate_flow_uses_session_image :
    ((generate { prompt := "a red circle", model_alias := some "nano-banana" }
        sessionWorld).calls.map ProviderCall.input_image) = [some "/prev.png"]
    ∧ resolve_input_image none (load_session sessionWorld.sessionFile)
        = some "/prev.png" := by
  constructor <;> rfl

/-- The message object of a C8 counterexample response: `images` is present
and non-empty, but its first element is an object exposing none of the
recognized keys, and there is no content list. -/
def c8msg : List (String × J) :=
  [("role", J.s "assistant"), ("images", J.arr [J.obj []])]

/-- C8 counterexample: on a response in which neither the `images` field's
first element nor the content list yields an image, the extraction does NOT
fail with the diagnostic protocol error — it silently returns Python `None`
(the `img.get("url") or img.get("b64_json") or img.get("data")` chain falls
through), contrary to the claim. -/
theorem extract_image_silent_none :
    extract_image c8msg = .image none ∧
    ∀ ks, extract_image c8msg ≠ .protocolError ks :=
  ⟨rfl, fun _ h => ExtractResult.noConfusion h⟩

/-- Helper: the content-list fallback raises the diagnostic error exactly
when the scan yields nothing. -/
theorem content_fallback_protocol (message : List (String × J))
    (h2 : content_has_no_image message = true) :
    content_fallback message = .protocolError (message.map Prod.fst) := by
  revert h2
  unfold content_fallback content_has_no_image
  rcases jGet message "content" with _ | c
  · intro _
    simp
  · rcases c with v | xs | fs | _
    · intro _
      simp
    · intro h2
      simp only [Option.isNone_iff_eq_none] at h2
      simp [h2]
    · intro _
      simp
    · intro _
      simp

/-- C8 amended: the diagnostic error — whose message reports the keys of
the message object (`message.keys()`, not the top-level response keys) — is
raised exactly when the `images` field is absent or falsy AND the content
scan yields nothing; an `images` entry whose first element is an
unrecognized object instead makes the adapter return no payload without
raising. -/
theorem extract_image_protocol_error (message : List (String × J))
    (h1 : images_falsy message = true)
    (h2 : content_has_no_image message = true) :
    extract_image message = .protocolError (message.map Prod.fst) := by
  have hcf := content_fallback_protocol message h2
  revert h1
  unfold extract_image images_falsy
  rcases jGet message "images" with _ | v
  · intro _
    exact hcf
  · intro h1
    simp at h1
    simp [h1, hcf]

/-- C8 amended witness: a message with no images and a string content. -/
theorem extract_image_protocol_error_witness :
    extract_image [("role", J.s "assistant"), ("content", J.s "hello")]
      = .protocolError ["role", "content"] :=
  extract_image_protocol_error _ rfl rfl
